import Mathlib

/-
Verification of the search-parameter normalization engine of pystac-user
(src/pystac_user/schema.py) against its natural-language specification.

Python strings are modelled as lists of characters (Str).  Python datetime
objects are modelled as microsecond counts from 0001-01-01T00:00:00 UTC
(naive datetimes are treated as UTC instants, which is the documented intent
of the library).  Fallible Python code (validators that raise ValueError,
the datetime constructor, fromisoformat) is modelled with Except.
-/

namespace PystacUser

/-- Python strings as lists of characters. -/
abbrev Str := List Char

/-- Coerce a Lean string literal to the model representation. -/
def strL (s : String) : Str := s.toList

/-- Character is an ASCII digit. -/
def isDig (c : Char) : Bool := decide ('0' ≤ c ∧ c ≤ '9')

/-- Numeric value of a digit character. -/
def digVal (c : Char) : Nat := c.toNat - 48

/-- Python str.split(sep) for a one-character separator: always returns a
non-empty list of (possibly empty) chunks. -/
def splitOnChar (sep : Char) : Str → List Str
  | [] => [[]]
  | c :: rest =>
    match splitOnChar sep rest with
    | [] => [[]]
    | t :: ts => if c = sep then [] :: t :: ts else (c :: t) :: ts

/-- Python sep.join for a one-character separator. -/
def joinSep (sep : Char) : List Str → Str
  | [] => []
  | [a] => a
  | a :: b :: rest => a ++ sep :: joinSep sep (b :: rest)

theorem splitOnChar_ne_nil (sep : Char) (s : Str) : splitOnChar sep s ≠ [] := by
  cases s with
  | nil => simp [splitOnChar]
  | cons c rest =>
    simp only [splitOnChar]
    cases h : splitOnChar sep rest with
    | nil => simp
    | cons t ts =>
      by_cases hc : c = sep <;> simp [hc]

theorem splitOnChar_not_mem {sep : Char} {s : Str} (h : sep ∉ s) :
    splitOnChar sep s = [s] := by
  induction s with
  | nil => rfl
  | cons c rest ih =>
    simp only [List.mem_cons, not_or] at h
    have hc : ¬(c = sep) := fun hc => h.1 hc.symm
    simp only [splitOnChar, ih h.2, if_neg hc]

theorem splitOnChar_append {sep : Char} {a : Str} (b : Str) (h : sep ∉ a) :
    splitOnChar sep (a ++ sep :: b) = a :: splitOnChar sep b := by
  induction a with
  | nil =>
    simp only [List.nil_append, splitOnChar]
    cases hb : splitOnChar sep b with
    | nil => exact absurd hb (splitOnChar_ne_nil sep b)
    | cons t ts => simp
  | cons c rest ih =>
    simp only [List.mem_cons, not_or] at h
    have hc : ¬(c = sep) := fun hc => h.1 hc.symm
    rw [List.cons_append, splitOnChar.eq_def]
    simp only [ih h.2, if_neg hc]

/-- 0-padding of a natural number to a given width (Python %02d / %04d). -/
def padNat (width n : Nat) : Str :=
  let ds := (Nat.toDigits 10 n)
  (List.replicate (width - ds.length) '0') ++ ds

/- ----------------------------------------------------------------------
Calendar arithmetic backing the Python datetime objects used by schema.py.
---------------------------------------------------------------------- -/

/-- True Gregorian leap-year rule, as implemented by Python datetime. -/
def isLeap (y : Nat) : Bool := y % 4 = 0 && (y % 100 ≠ 0 || y % 400 = 0)

/-- Number of days in a month of a given year (Python calendar rule). -/
def daysInMonth (y m : Nat) : Nat :=
  if m = 2 then (if isLeap y then 29 else 28)
  else if m = 4 ∨ m = 6 ∨ m = 9 ∨ m = 11 then 30
  else 31

/-- Days in all years before year y (y ≥ 1), proleptic Gregorian. -/
def daysBeforeYear (y : Nat) : Nat :=
  let n := y - 1
  n * 365 + n / 4 - n / 100 + n / 400

/-- Days in the months of year y strictly before month m. -/
def daysBeforeMonth (y m : Nat) : Nat :=
  (List.range (m - 1)).foldl (fun acc i => acc + daysInMonth y (i + 1)) 0

/-- Day count of a civil date, with 0001-01-01 mapped to 0
(Python date.toordinal minus 1). -/
def toOrdinal (y m d : Nat) : Nat :=
  daysBeforeYear y + daysBeforeMonth y m + (d - 1)

/-- Microseconds per second, minute, hour, day. -/
def usecSec : Int := 1000000
def usecMin : Int := 60 * usecSec
def usecHour : Int := 60 * usecMin
def usecDay : Int := 24 * usecHour

/-- The UTC instant of a civil date-time, in microseconds from
0001-01-01T00:00:00 UTC, shifted by a UTC offset given in minutes. -/
def instantOf (y m d h mi s usec : Nat) (offMin : Int) : Int :=
  ((toOrdinal y m d : Int) * usecDay) + (h : Int) * usecHour +
    (mi : Int) * usecMin + (s : Int) * usecSec + (usec : Int) - offMin * usecMin

/-- The UTC instant of a civil date-time with no offset. -/
def utcInstant (y m d h mi s : Nat) : Int := instantOf y m d h mi s 0 0

/-- Model of the Python datetime constructor datetime(y, m, d, h, mi, s,
tzinfo=utc): validates every component exactly as CPython does and raises
ValueError (here: Except.error) on any out-of-range component. -/
def datetimeMk (y m d h mi s : Nat) : Except Str Int :=
  if 1 ≤ y ∧ y ≤ 9999 ∧ 1 ≤ m ∧ m ≤ 12 ∧ 1 ≤ d ∧ d ≤ daysInMonth y m ∧
      h ≤ 23 ∧ mi ≤ 59 ∧ s ≤ 59 then
    .ok (utcInstant y m d h mi s)
  else
    .error (strL "invalid datetime component value")

/- ----------------------------------------------------------------------
String to datetime parsing: datetime.fromisoformat (CPython 3.11
semantics on the extended format) and the DATETIME_REGEX of schema.py.
---------------------------------------------------------------------- -/

/-- Parse one digit character. -/
def parseDigit : Str → Option (Nat × Str)
  | c :: r => if isDig c then some (digVal c, r) else none
  | [] => none

/-- Parse exactly two digit characters as a number. -/
def parseDigits2 (s : Str) : Option (Nat × Str) :=
  match parseDigit s with
  | some (a, r) =>
    match parseDigit r with
    | some (b, r2) => some (a * 10 + b, r2)
    | none => none
  | none => none

/-- Parse exactly four digit characters as a number. -/
def parseDigits4 (s : Str) : Option (Nat × Str) :=
  match parseDigits2 s with
  | some (a, r) =>
    match parseDigits2 r with
    | some (b, r2) => some (a * 100 + b, r2)
    | none => none
  | none => none

/-- Parse a fromisoformat UTC offset: Z, z, or a sign followed by hh or
hh:mm; the total offset must be strictly smaller than 24 hours.  Returns
the offset in minutes and the remaining input. -/
def parseIsoTz : Str → Option (Int × Str)
  | 'Z' :: r => some (0, r)
  | 'z' :: r => some (0, r)
  | c :: r =>
    if c = '+' ∨ c = '-' then
      match parseDigits2 r with
      | none => none
      | some (hh, r2) =>
        let next : Option (Nat × Str) :=
          match r2 with
          | ':' :: r3 => (parseDigits2 r3).map (fun p => (hh * 60 + p.1, p.2))
          | _ => some (hh * 60, r2)
        match next with
        | none => none
        | some (total, r4) =>
          if total < 24 * 60 then
            some ((if c = '-' then -(total : Int) else (total : Int)), r4)
          else none
    else none
  | [] => none

/-- First at most six fractional digits as a microsecond count
(CPython pads to, or truncates at, microsecond precision). -/
def fracToUsec (ds : Str) : Nat :=
  ((ds.take 6).foldl (fun acc c => acc * 10 + digVal c) 0) *
    10 ^ (6 - min ds.length 6)

/-- Model of datetime.fromisoformat restricted to the extended format
YYYY-MM-DD<sep>hh:mm:ss[.frac][offset] that the call sites in schema.py
can produce.  Any trailing characters make the parse fail, as in CPython
(so a string ending in Z followed by more text is rejected). -/
def fromisoformat (s : Str) : Except Str Int :=
  let fail : Except Str Int := .error (strL "Invalid isoformat string: " ++ s)
  match parseDigits4 s with
  | none => fail
  | some (y, r1) =>
    match r1 with
    | '-' :: r2 =>
      match parseDigits2 r2 with
      | none => fail
      | some (mo, r3) =>
        match r3 with
        | '-' :: r4 =>
          match parseDigits2 r4 with
          | none => fail
          | some (dy, r5) =>
            match r5 with
            | [] => datetimeMk y mo dy 0 0 0
            | _ :: r6 =>  -- any single character acts as the date-time separator
              match parseDigits2 r6 with
              | none => fail
              | some (hh, r7) =>
                match r7 with
                | ':' :: r8 =>
                  match parseDigits2 r8 with
                  | none => fail
                  | some (mi, r9) =>
                    match r9 with
                    | ':' :: r10 =>
                      match parseDigits2 r10 with
                      | none => fail
                      | some (ss, r11) =>
                        let fr :=
                          match r11 with
                          | '.' :: r12 =>
                            let ds := r12.takeWhile isDig
                            if ds = [] then none
                            else some (fracToUsec ds, r12.dropWhile isDig)
                          | _ => none
                        let usec := (fr.map Prod.fst).getD 0
                        let r13 := (fr.map Prod.snd).getD r11
                        match r13 with
                        | [] =>
                          match datetimeMk y mo dy hh mi ss with
                          | .error e => .error e
                          | .ok t => .ok (t + usec)
                        | _ =>
                          match parseIsoTz r13 with
                          | some (off, []) =>
                            match datetimeMk y mo dy hh mi ss with
                            | .error e => .error e
                            | .ok t => .ok (t + usec - off * usecMin)
                          | _ => fail
                    | _ => fail
                | _ => fail
        | _ => fail
    | _ => fail

/-- The captured groups of DATETIME_REGEX that schema.py inspects. -/
structure DtMatch where
  year : Nat
  month : Option Nat := none
  day : Option Nat := none
  hasRemainder : Bool := false
  hasTz : Bool := false
deriving DecidableEq, Repr

/-- The tz_info alternative of DATETIME_REGEX: Z, z or a sign followed by
two digits, a colon and two digits.  Returns the remaining input. -/
def matchTzInfo : Str → Option Str
  | 'Z' :: r => some r
  | 'z' :: r => some r
  | c :: r =>
    if c = '+' ∨ c = '-' then
      match parseDigits2 r with
      | some (_, ':' :: r2) =>
        match parseDigits2 r2 with
        | some (_, r3) => some r3
        | none => none
      | _ => none
    else none
  | [] => none

/-- The optional fractional-seconds part of DATETIME_REGEX: a dot followed
by one or more digits, consumed greedily; absent otherwise. -/
def matchFrac (s : Str) : Str :=
  match s with
  | '.' :: r => if r.takeWhile isDig = [] then s else r.dropWhile isDig
  | _ => s

/-- The remainder group of DATETIME_REGEX: T or t, then hh:mm:ss, an
optional fraction and an optional tz_info group.  Returns whether tz_info
matched together with the remaining input, or none when the whole group
does not match. -/
def matchRemainder : Str → Option (Bool × Str)
  | c :: r =>
    if c = 'T' ∨ c = 't' then
      match parseDigits2 r with
      | some (_, ':' :: r2) =>
        match parseDigits2 r2 with
        | some (_, ':' :: r3) =>
          match parseDigits2 r3 with
          | some (_, r4) =>
            let r5 := matchFrac r4
            match matchTzInfo r5 with
            | some r6 => some (true, r6)
            | none => some (false, r5)
          | none => none
        | _ => none
      | _ => none
    else none
  | [] => none

/-- Full match of DATETIME_REGEX against a component string, yielding the
groups used by Search._datetime_to_range, or none when the string does not
match the pattern. -/
def datetimeRegexMatch (s : Str) : Option DtMatch :=
  match parseDigits4 s with
  | none => none
  | some (y, r1) =>
    match r1 with
    | [] => some { year := y }
    | '-' :: r2 =>
      match parseDigits2 r2 with
      | none => none
      | some (mo, r3) =>
        match r3 with
        | [] => some { year := y, month := some mo }
        | '-' :: r4 =>
          match parseDigits2 r4 with
          | none => none
          | some (dy, r5) =>
            match r5 with
            | [] => some { year := y, month := some mo, day := some dy }
            | _ =>
              match matchRemainder r5 with
              | some (tz, []) =>
                some { year := y, month := some mo, day := some dy,
                       hasRemainder := true, hasTz := tz }
              | _ => none
        | _ => none
    | _ => none

/-- MONTH_DAYS table of schema.py (fixed days per month, February 28).
The table is only ever consulted for months 1 to 12, since the datetime
constructor has already rejected anything else. -/
def MONTH_DAYS : Nat → Nat
  | 1 => 31
  | 2 => 28
  | 3 => 31
  | 4 => 30
  | 5 => 31
  | 6 => 30
  | 7 => 31
  | 8 => 31
  | 9 => 30
  | 10 => 31
  | 11 => 30
  | _ => 31

namespace Search

/-- Search._datetime_to_range: converts a string-like datetime component to
a (start, optional end) datetime range, translated line by line from
schema.py.  The full-timestamp branch without explicit tz information calls
fromisoformat on the component with the text Z+00:00 appended, exactly as
the source does. -/
def _datetime_to_range (component : Str) :
    Except Str (Int × Option Int) :=
  match datetimeRegexMatch component with
  | none => .error (strL "invalid datetime component: " ++ component)
  | some m =>
    if m.hasRemainder then
      if m.hasTz then
        match fromisoformat component with
        | .error e => .error e
        | .ok t => .ok (t, none)
      else
        match fromisoformat (component ++ strL "Z+00:00") with
        | .error e => .error e
        | .ok t => .ok (t, none)
    else
      match m.day with
      | some dy =>
        match datetimeMk m.year (m.month.getD 0) dy 0 0 0 with
        | .error e => .error e
        | .ok start => .ok (start, some (start + usecDay - usecSec))
      | none =>
        match m.month with
        | some mo =>
          match datetimeMk m.year mo 1 0 0 0 with
          | .error e => .error e
          | .ok start =>
            .ok (start, some
              (if mo = 2 ∧ m.year % 4 = 0 then
                start + (MONTH_DAYS mo : Int) * usecDay - usecSec + usecDay
              else start + (MONTH_DAYS mo : Int) * usecDay - usecSec))
        | none =>
          match datetimeMk m.year 1 1 0 0 0 with
          | .error e => .error e
          | .ok start =>
            .ok (start, some
              (if m.year % 4 = 0 then start + 365 * usecDay - usecSec + usecDay
               else start + 365 * usecDay - usecSec))

end Search

/-- Sanity check of the embedding against the library's own test suite:
a full timestamp with an explicit offset is parsed as the corresponding
UTC instant with no end. -/
theorem datetime_component_with_tz_eval :
    Search._datetime_to_range (strL "2022-03-15T12:30:45+01:00") =
      .ok (utcInstant 2022 3 15 11 30 45, none) := rfl

/- ----------------------------------------------------------------------
JSON-like values: the Any-typed payloads handled by the directives and by
the dict serializations of schema.py.
---------------------------------------------------------------------- -/

/-- JSON-like Python values (dicts are insertion-ordered key/value lists). -/
inductive JVal where
  | jnull
  | jbool (b : Bool)
  | jint (n : Int)
  | jfloat (n : Int)
  | jstr (s : Str)
  | jlist (xs : List JVal)
  | jobj (kvs : List (Str × JVal))
deriving Repr

/-- A scalar (non-container) value: everything except lists and dicts. -/
def JVal.isScalar : JVal → Bool
  | .jlist _ => false
  | .jobj _ => false
  | _ => true

/-- Python dict assignment d[k] = v: replaces in place or appends. -/
def assocSet (kvs : List (Str × JVal)) (k : Str) (v : JVal) :
    List (Str × JVal) :=
  match kvs with
  | [] => [(k, v)]
  | (k0, v0) :: rest =>
    if k0 = k then (k0, v) :: rest else (k0, v0) :: assocSet rest k v

/-- Python dict lookup. -/
def assocGet (kvs : List (Str × JVal)) (k : Str) : Option JVal :=
  match kvs with
  | [] => none
  | (k0, v0) :: rest => if k0 = k then some v0 else assocGet rest k

/-- Python dst.update(src): last write wins per key. -/
def dictUpdate (dst src : List (Str × JVal)) : List (Str × JVal) :=
  src.foldl (fun d kv => assocSet d kv.1 kv.2) dst

/-- One element handed to utils.merge_schemas_dict: either an object that
exposes a .dict() method (a directive dataclass, represented here by that
method's result), or a plain Python dict, which has no such method. -/
inductive MergeArg where
  | obj (d : List (Str × JVal))
  | raw (d : List (Str × JVal))

/-- The loop of utils.merge_schemas_dict: merged.update(obj.dict()) per
element; a plain dict raises AttributeError at its iteration because it
has no .dict method. -/
def merge_schemas_go (merged : List (Str × JVal)) :
    List MergeArg → Except Str (List (Str × JVal))
  | [] => .ok merged
  | .obj d :: rest => merge_schemas_go (dictUpdate merged d) rest
  | .raw _ :: _ =>
    .error (strL "AttributeError: dict object has no attribute dict")

/-- utils.merge_schemas_dict: merge the dict forms of a list of directive
objects into one dict, later entries overwriting earlier ones per key;
fails with AttributeError when an element is a plain dict rather than an
object with a .dict() method. -/
def merge_schemas_dict (objs : List MergeArg) :
    Except Str (List (Str × JVal)) :=
  merge_schemas_go [] objs

/-- On a list of directive objects the merge never fails and folds their
dict forms left to right. -/
theorem merge_schemas_go_objs (acc : List (Str × JVal))
    (ds : List (List (Str × JVal))) :
    merge_schemas_go acc (ds.map .obj) = .ok (ds.foldl dictUpdate acc) := by
  induction ds generalizing acc with
  | nil => rfl
  | cons d rest ih => simp [merge_schemas_go, ih]

mutual

/-- Naive JSON text rendering (string contents are emitted unescaped),
standing in for geojson.dumps / json.dumps. -/
def jsonDump : JVal → Str
  | .jnull => strL "null"
  | .jbool b => if b then strL "true" else strL "false"
  | .jint n => strL (toString n)
  | .jfloat n => strL (toString n) ++ strL ".0"
  | .jstr s => '"' :: s ++ ['"']
  | .jlist xs => '[' :: jsonDumpItems xs ++ [']']
  | .jobj kvs => Char.ofNat 123 :: jsonDumpPairs kvs ++ [Char.ofNat 125]

/-- Comma-joined rendering of a JSON array body. -/
def jsonDumpItems : List JVal → Str
  | [] => []
  | [x] => jsonDump x
  | x :: y :: rest => jsonDump x ++ ',' :: jsonDumpItems (y :: rest)

/-- Comma-joined rendering of a JSON object body. -/
def jsonDumpPairs : List (Str × JVal) → Str
  | [] => []
  | [kv] => '"' :: kv.1 ++ ['"', ':'] ++ jsonDump kv.2
  | kv :: kv2 :: rest =>
    ('"' :: kv.1 ++ ['"', ':'] ++ jsonDump kv.2) ++ ',' :: jsonDumpPairs (kv2 :: rest)

end

/-- A validated geojson.GeoJSON object: an opaque JSON payload together
with the validity flag consulted by the intersects validator. -/
structure GeoJSON where
  obj : List (Str × JVal)
  is_valid : Bool

/-- geojson.dumps of a GeoJSON object. -/
def geojson_dumps (g : GeoJSON) : Str := jsonDump (.jobj g.obj)

/- ----------------------------------------------------------------------
The Query directive (schema.py class Query).
---------------------------------------------------------------------- -/

/-- The ten canonical operator names (_QUERY_OPERATOR). -/
def QUERY_OPERATOR : List Str :=
  [strL "eq", strL "neq", strL "lt", strL "lte", strL "gt", strL "gte",
   strL "startsWith", strL "endsWith", strL "contains", strL "in"]

/-- The shorthand synonym table (_OPERATOR_MAP). -/
def OPERATOR_MAP (op : Str) : Option Str :=
  if op = strL "==" then some (strL "eq")
  else if op = strL "!=" then some (strL "neq")
  else if op = strL "<" then some (strL "lt")
  else if op = strL "<=" then some (strL "lte")
  else if op = strL ">" then some (strL "gt")
  else if op = strL ">=" then some (strL "gte")
  else none

/-- A constructed Query directive: a property plus an ordered operator
list whose names have already passed check_operator. -/
structure Query where
  property : Str
  operator : List (Str × JVal)

/-- The per-item operator validator Query.check_operator: replaces a
shorthand symbol by its canonical name and rejects anything that is not a
canonical operator, with an error message naming the offending symbol. -/
def Query.check_operator (v : Str × JVal) : Except Str (Str × JVal) :=
  let op := match OPERATOR_MAP v.1 with
    | some m => m
    | none => v.1
  if op ∈ QUERY_OPERATOR then .ok (op, v.2)
  else .error (strL "Operator " ++ op ++
    strL " is not valid it should be one of the query operators or the operator map keys")

/-- Fail-fast mapping of a fallible function over a list: the loop-append
pattern of the validators, stopping at the first raised error. -/
def mapExcept (f : A → Except Str B) : List A → Except Str (List B)
  | [] => .ok []
  | x :: xs =>
    match f x with
    | .error e => .error e
    | .ok y =>
      match mapExcept f xs with
      | .error e => .error e
      | .ok ys => .ok (y :: ys)

/-- Pydantic construction of a Query: runs check_operator on every
operator item. -/
def Query.make (property : Str) (operator : List (Str × JVal)) :
    Except Str Query :=
  match mapExcept Query.check_operator operator with
  | .error e => .error e
  | .ok ops => .ok ⟨property, ops⟩

/-- Query.dict: the property mapped to a dict built by assigning each
operator in order (later duplicates overwrite earlier ones). -/
def Query.dict (q : Query) : List (Str × JVal) :=
  [(q.property,
    .jobj (q.operator.foldl (fun acc ov => assocSet acc ov.1 ov.2) []))]

/- ----------------------------------------------------------------------
The Filter, SortBy and Field directives.
---------------------------------------------------------------------- -/

/-- A structured CQL2 filter node (schema.py class Filter). -/
structure Filter where
  op : Str
  args : List (List (Str × JVal))

/-- Filter.dict: the op and args emitted verbatim. -/
def Filter.dict (f : Filter) : List (Str × JVal) :=
  [(strL "op", .jstr f.op), (strL "args", .jlist (f.args.map .jobj))]

/-- A sort direction (the Literal type of SortBy.direction). -/
inductive Direction where
  | asc
  | desc
deriving DecidableEq, Repr

/-- The literal text of a direction. -/
def Direction.text : Direction → Str
  | .asc => strL "asc"
  | .desc => strL "desc"

/-- One sort directive (schema.py class SortBy). -/
structure SortBy where
  field : Str
  direction : Direction
deriving DecidableEq, Repr

/-- SortBy.dict. -/
def SortBy.dict (sb : SortBy) : List (Str × JVal) :=
  [(strL "field", .jstr sb.field), (strL "direction", .jstr sb.direction.text)]

/-- SortBy.__str__: + for ascending, - for descending, then the field. -/
def SortBy.toStr (sb : SortBy) : Str :=
  (if sb.direction = .asc then '+' else '-') :: sb.field

/-- One comma-separated token of a compact sort string: a - prefix means
descending, a + prefix (or no prefix) means ascending. -/
def SortBy.parseToken (p : Str) : SortBy :=
  match p with
  | '-' :: f => ⟨f, .desc⟩
  | '+' :: f => ⟨f, .asc⟩
  | _ => ⟨p, .asc⟩

/-- SortBy.from_string: reject the empty string, split on commas, and read
every token. -/
def SortBy.from_string (part : Str) : Except Str (List SortBy) :=
  if part = [] then .error (strL "Empty string provided")
  else .ok ((splitOnChar ',' part).map SortBy.parseToken)

/-- The include-or-exclude tag of a Field directive. -/
inductive FieldType where
  | incl
  | excl
deriving DecidableEq, Repr

/-- One field-projection directive (schema.py class Field). -/
structure Field where
  field_type : FieldType
  fields : List Str
deriving DecidableEq, Repr

/-- Field.dict: a one-key dict from the literal include / exclude to the
field list. -/
def Field.dict (f : Field) : List (Str × JVal) :=
  [(strL (if f.field_type = .incl then "include" else "exclude"),
    .jlist (f.fields.map .jstr))]

/-- Field.__str__: each field prefixed with + or - and comma-joined. -/
def Field.toStr (f : Field) : Str :=
  joinSep ','
    (f.fields.map fun g =>
      (if f.field_type = .incl then '+' else '-') :: g)

/-- Field.from_string: reject the empty string, split on commas, send
minus-prefixed tokens to the exclude bucket and every other token to the
include bucket, and return (include directive or none, exclude directive
or none); the defensive both-empty case fails. -/
def Field.from_string (fields : Str) :
    Except Str (Option Field × Option Field) :=
  if fields = [] then .error (strL "Empty string provided")
  else
    let toks := splitOnChar ',' fields
    let includes : List Str := toks.filterMap fun f =>
      match f with
      | '-' :: _ => none
      | '+' :: g => some g
      | _ => some f
    let excludes : List Str := toks.filterMap fun f =>
      match f with
      | '-' :: g => some g
      | _ => none
    let fi : Option Field :=
      if includes.length > 0 then some ⟨.incl, includes⟩ else none
    let fe : Option Field :=
      if excludes.length > 0 then some ⟨.excl, excludes⟩ else none
    if fi = none ∧ fe = none then .error (strL "No fields provided")
    else .ok (fi, fe)

/- ----------------------------------------------------------------------
The Search aggregate: stored state, input shapes and validators.
---------------------------------------------------------------------- -/

/-- DEFAUL_LIMIT of schema.py. -/
def DEFAUL_LIMIT : Int := 100

/-- The stored filter of a Search: a raw CQL2-text string, or a structured
Filter node. -/
inductive FilterVal where
  | text (s : Str)
  | node (f : Filter)

/-- The CQL2 enum of types.py; values cql2-json and cql2-text. -/
inductive CQL2 where
  | json
  | text
deriving DecidableEq, Repr

/-- The value string of a CQL2 member. -/
def CQL2.value : CQL2 → Str
  | .json => strL "cql2-json"
  | .text => strL "cql2-text"

/-- A stored filter_lang: either the CQL2 enum member a caller passed
explicitly (the only raw value the Literal field validation accepts), or
the plain string written afterwards by the inference root validator. -/
inductive FilterLangVal where
  | enumv (c : CQL2)
  | strv (s : Str)
deriving DecidableEq, Repr

/-- The string content of a stored filter_lang value. -/
def FilterLangVal.text : FilterLangVal → Str
  | .enumv c => c.value
  | .strv s => s

/-- A fully constructed (frozen) Search record. -/
structure Search where
  search_type : Str
  bbox : Option (List Int) := none
  intersects : Option GeoJSON := none
  datetime : Option (Int × Option Int) := none
  ids : Option (List Str) := none
  collections : Option (List Str) := none
  query : Option (List Query) := none
  filter : Option FilterVal := none
  filter_lang : Option FilterLangVal := none
  sort_by : Option (List SortBy) := none
  fields : Option (Option Field × Option Field) := none
  limit : Option Int := some DEFAUL_LIMIT

/-- Generic Python objects, deep enough for the raw query argument of a
Search: strings, JSON scalars and containers, Query instances, lists and
tuples. -/
inductive PyObj where
  | pstr (s : Str)
  | pjson (v : JVal)
  | pquery (q : Query)
  | plist (xs : List PyObj)
  | ptuple (xs : List PyObj)

mutual

/-- The value of a PyObj when stored in an Any-typed slot.  A Query
instance is an opaque object; it is rendered as null here and is never
produced by the verified claims. -/
def pyObjVal : PyObj → JVal
  | .pstr s => .jstr s
  | .pjson v => v
  | .pquery _ => .jnull
  | .plist xs => .jlist (pyObjValList xs)
  | .ptuple xs => .jlist (pyObjValList xs)

/-- Values of a list of PyObjs. -/
def pyObjValList : List PyObj → List JVal
  | [] => []
  | x :: xs => pyObjVal x :: pyObjValList xs

end

/-- Pydantic v1 coercion of a raw value into a str-typed field: strings
pass, numbers are stringified, anything else is rejected. -/
def pyObjToStr : PyObj → Except Str Str
  | .pstr s => .ok s
  | .pjson (.jint n) => .ok (strL (toString n))
  | .pjson (.jfloat n) => .ok (strL (toString n) ++ strL ".0")
  | _ => .error (strL "str type expected")

/-- Pydantic v1 coercion into Tuple[str, Any]: a list or tuple of exactly
two items whose first coerces to str. -/
def pyObjToPair : PyObj → Except Str (Str × JVal)
  | .plist [a, b] =>
    match pyObjToStr a with
    | .ok s => .ok (s, pyObjVal b)
    | .error e => .error e
  | .ptuple [a, b] =>
    match pyObjToStr a with
    | .ok s => .ok (s, pyObjVal b)
    | .error e => .error e
  | _ => .error (strL "Tuple of str and value expected")

/-- Pydantic v1 coercion into List[Tuple[str, Any]]. -/
def pyObjToOps : PyObj → Except Str (List (Str × JVal))
  | .plist xs => mapExcept pyObjToPair xs
  | .ptuple xs => mapExcept pyObjToPair xs
  | _ => .error (strL "value is not a valid list")

/-- Full pydantic construction Query(property=p, operator=o) from two raw
objects: coerce both fields, then run check_operator on every item. -/
def queryFromObjs (p o : PyObj) : Except Str Query :=
  match pyObjToStr p with
  | .error e => .error e
  | .ok prop =>
    match pyObjToOps o with
    | .error e => .error e
    | .ok ops => Query.make prop ops

/-- Python subscription obj[i]: lists and tuples index their items, a
string yields a one-character string, anything else raises. -/
def pyIndex : PyObj → Nat → Option PyObj
  | .plist xs, i => xs.get? i
  | .ptuple xs, i => xs.get? i
  | .pstr s, i => (s.get? i).map (fun c => .pstr [c])
  | _, _ => none

/-- Raw intersects argument: a GeoJSON instance passes through; a mapping
is first converted by GeoJSON.to_instance and must be valid. -/
inductive IntersectsLike where
  | geo (g : GeoJSON)
  | raw (g : GeoJSON)

/-- Raw datetime argument: a string, a single datetime instant, or a tuple
of datetime-or-None entries.  (Tuple entries of other types only produce
the same kind of ValueError and are not modelled.) -/
inductive DatetimeInput where
  | text (s : Str)
  | dt (d : Int)
  | tup (xs : List (Option Int))

/-- Raw primitive list elements for ids / collections. -/
inductive PyPrim where
  | s (v : Str)
  | i (v : Int)
deriving DecidableEq, Repr

/-- Raw ids / collections argument: a string, a Python list, a tuple (or
any other sequence that is not a list), or a non-sequence scalar. -/
inductive IdsLike where
  | text (v : Str)
  | lst (xs : List PyPrim)
  | tup (xs : List PyPrim)
  | intv (v : Int)

/-- Pydantic v1 coercion of a list element into str. -/
def pyPrimToStr : PyPrim → Str
  | .s v => v
  | .i v => strL (toString v)

/-- Raw filter argument: a Filter instance, a string, a tuple or list, or
a non-sequence scalar. -/
inductive FilterLike where
  | fobj (f : Filter)
  | text (s : Str)
  | seq (xs : List PyObj)
  | other

/-- Raw filter_lang argument: the CQL2 enum member, or some other value
(e.g. a plain string), which the Literal field validation rejects. -/
inductive FilterLangLike where
  | enumv (c : CQL2)
  | strv (s : Str)

namespace Search

/-- Search._intersects_to_geojson. -/
def _intersects_to_geojson : Option IntersectsLike → Except Str (Option GeoJSON)
  | none => .ok none
  | some (.geo g) => .ok (some g)
  | some (.raw g) =>
    if g.is_valid then .ok (some g)
    else .error (strL "invalid intersects, GeoJSON is not valid")

/-- Search._validate_datetime, translated branch by branch. -/
def _validate_datetime :
    Option DatetimeInput → Except Str (Option (Int × Option Int))
  | none => .ok none
  | some (.text s) =>
    if '/' ∈ s then
      match splitOnChar '/' s with
      | [a, b] =>
        match Search._datetime_to_range a with
        | .error e => .error e
        | .ok (start, backup_start) =>
          match Search._datetime_to_range b with
          | .error e => .error e
          | .ok (backup_end, endv) =>
            if backup_end < start then
              match backup_start with
              | none => .ok (some (backup_end, some start))
              | some bs => .ok (some (backup_end, some bs))
            else .ok (some (start, some (endv.getD backup_end)))
      | _ => .error (strL "datetime range must be max 2 values")
    else
      match Search._datetime_to_range s with
      | .error e => .error e
      | .ok r => .ok (some r)
  | some (.dt d) => .ok (some (d, none))
  | some (.tup xs) =>
    let xs2 := if xs.length = 1 then xs ++ [none] else xs
    match xs2 with
    | [a, b] =>
      match a with
      | none =>
        .error (strL "invalid datetime tuple, start must be a datetime object")
      | some a0 =>
        match b with
        | some b0 =>
          if a0 > b0 then .ok (some (b0, some a0)) else .ok (some (a0, some b0))
        | none => .ok (some (a0, none))
    | _ => .error (strL "datetime range must be max 2 values")

/-- Search._covert_ids (the validator, before pydantic coerces the
declared List[str] element type). -/
def _covert_ids : Option IdsLike → Except Str (Option (List PyPrim))
  | none => .ok none
  | some (.text v) =>
    if ',' ∈ v then .ok (some ((splitOnChar ',' v).map PyPrim.s))
    else .ok (some [PyPrim.s v])
  | some (.lst xs) => .ok (some xs)
  | some (.tup _) => .error (strL "invalid type: must be str or list")
  | some (.intv _) => .error (strL "invalid type: must be str or list")

/-- The full ids / collections field: the validator followed by the
pydantic element coercion into str. -/
def idsField (v : Option IdsLike) : Except Str (Option (List Str)) :=
  match _covert_ids v with
  | .error e => .error e
  | .ok none => .ok none
  | .ok (some xs) => .ok (some (xs.map pyPrimToStr))

/-- The element-wise fallback loop of Search._convert_query: Query
instances pass through, anything else is built as Query(q[0], q[1]). -/
def convertQueryItem (x : PyObj) : Except Str Query :=
  match x with
  | .pquery qq => .ok qq
  | _ =>
    match pyIndex x 0, pyIndex x 1 with
    | some a, some b => queryFromObjs a b
    | _, _ => .error (strL "invalid query item")

/-- The loop of the fallback branch applied to every raw item. -/
def convertQueryItems (xs : List PyObj) : Except Str (Option (List Query)) :=
  match mapExcept convertQueryItem xs with
  | .ok l => .ok (some l)
  | .error e => .error e

/-- Search._convert_query.  For a list the source first tries
Query(property=query[0], operator=query[1]) under a bare except and only
falls back to the element-wise loop when that construction fails. -/
def _convert_query : Option PyObj → Except Str (Option (List Query))
  | none => .ok none
  | some (.plist xs) =>
    match xs.get? 0, xs.get? 1 with
    | some q0, some q1 =>
      match queryFromObjs q0 q1 with
      | .ok qq => .ok (some [qq])
      | .error _ => convertQueryItems xs
    | _, _ => convertQueryItems xs
  | some (.pquery qq) => .ok (some [qq])
  | some (.ptuple xs) =>
    match xs with
    | [a, b] =>
      match queryFromObjs a b with
      | .ok qq => .ok (some [qq])
      | .error e => .error e
    | _ => .error (strL "query tuple must be 2 values")
  | some _ => .error (strL "invalid query type")

/-- Pydantic construction Filter(op=a, args=b) from raw objects. -/
def filterFromObjs (a b : PyObj) : Except Str Filter :=
  match pyObjToStr a with
  | .error e => .error e
  | .ok op =>
    let argsOf : List PyObj → Except Str (List (List (Str × JVal))) :=
      fun xs => mapExcept (fun x =>
        match x with
        | .pjson (.jobj kvs) => Except.ok kvs
        | _ => Except.error (strL "value is not a valid dict")) xs
    match b with
    | .plist xs =>
      match argsOf xs with
      | .ok args => .ok ⟨op, args⟩
      | .error e => .error e
    | .ptuple xs =>
      match argsOf xs with
      | .ok args => .ok ⟨op, args⟩
      | .error e => .error e
    | _ => .error (strL "value is not a valid list")

/-- Search._convert_filter. -/
def _convert_filter : Option FilterLike → Except Str (Option FilterVal)
  | none => .ok none
  | some (.fobj f) => .ok (some (.node f))
  | some (.text s) => .ok (some (.text s))
  | some (.seq xs) =>
    match xs with
    | [a, b] =>
      match filterFromObjs a b with
      | .ok f => .ok (some (.node f))
      | .error e => .error e
    | _ => .error (strL "invalid filter tuple length: should be 2")
  | some .other => .error (strL "invalid filter type if not string: should be tuple")

/-- The pydantic Literal[CQL2.TEXT, CQL2.JSON] field validation of
filter_lang: only the enum members themselves are permitted. -/
def validateFilterLang :
    Option FilterLangLike → Except Str (Option FilterLangVal)
  | none => .ok none
  | some (.enumv c) => .ok (some (.enumv c))
  | some (.strv _) => .error (strL "unexpected value for filter_lang")

/-- Root validator Search._validate_positioning: when both bbox and
intersects are present, bbox is cleared (with a warning, not an error). -/
def _validate_positioning (s : Search) : Search :=
  if s.intersects.isSome ∧ s.bbox.isSome then { s with bbox := none } else s

/-- Root validator Search._validate_filter_lang: when a filter is present
and filter_lang is not, infer cql2-text for a string filter and cql2-json
otherwise; the inferred value is written as a plain string. -/
def _validate_filter_lang (s : Search) : Search :=
  if s.filter_lang.isNone ∧ s.filter.isSome then
    match s.filter with
    | some (.text _) => { s with filter_lang := some (.strv (strL "cql2-text")) }
    | _ => { s with filter_lang := some (.strv (strL "cql2-json")) }
  else s

end Search

/-- The raw keyword arguments of a Search construction.  The sort_by and
fields arguments are taken already in directive form: their conversion
validators accept further raw shapes that no verified claim exercises. -/
structure SearchInput where
  search_type : Str
  bbox : Option (List Int) := none
  intersects : Option IntersectsLike := none
  datetime : Option DatetimeInput := none
  ids : Option IdsLike := none
  collections : Option IdsLike := none
  query : Option PyObj := none
  filter : Option FilterLike := none
  filter_lang : Option FilterLangLike := none
  sort_by : Option (List SortBy) := none
  fields : Option (Option Field × Option Field) := none
  limit : Option Int := some DEFAUL_LIMIT

/-- Full pydantic construction of a Search: per-field validation in field
order (failing fast on the first error, as a failed construction raises),
followed by the two root validators. -/
def Search.construct (inp : SearchInput) : Except Str Search := do
  let st ←
    if inp.search_type = strL "api" ∨ inp.search_type = strL "static" then
      Except.ok inp.search_type
    else Except.error (strL "unexpected value for search_type")
  let bb ←
    match inp.bbox with
    | none => Except.ok none
    | some xs =>
      if xs.length = 4 ∨ xs.length = 6 then Except.ok (some xs)
      else Except.error (strL "bbox must have 4 or 6 values")
  let its ← Search._intersects_to_geojson inp.intersects
  let dt ← Search._validate_datetime inp.datetime
  let idv ← Search.idsField inp.ids
  let cols ← Search.idsField inp.collections
  let qs ← Search._convert_query inp.query
  let fv ← Search._convert_filter inp.filter
  let flang ← Search.validateFilterLang inp.filter_lang
  let s : Search :=
    { search_type := st, bbox := bb, intersects := its, datetime := dt,
      ids := idv, collections := cols, query := qs, filter := fv,
      filter_lang := flang, sort_by := inp.sort_by, fields := inp.fields,
      limit := inp.limit }
  return Search._validate_filter_lang (Search._validate_positioning s)

/- ----------------------------------------------------------------------
The three Search serializations.
---------------------------------------------------------------------- -/

/-- Civil date of a day count (0 mapped to 0001-01-01), inverse of
toOrdinal on valid dates. -/
def civilFromDays (z : Nat) : Nat × Nat × Nat :=
  let z0 := z + 306
  let era := z0 / 146097
  let doe := z0 % 146097
  let yoe := (doe - doe / 1460 + doe / 36524 - doe / 146096) / 365
  let y0 := yoe + era * 400
  let doy := doe - (365 * yoe + yoe / 4 - yoe / 100)
  let mp := (5 * doy + 2) / 153
  let d := doy - (153 * mp + 2) / 5 + 1
  let m := if mp < 10 then mp + 3 else mp - 9
  (if m ≤ 2 then y0 + 1 else y0, m, d)

namespace Search

/-- Search._to_utc_isoformat: the instant rendered as an ISO-8601 UTC
timestamp with a Z suffix, microseconds appended only when nonzero.
(Instants reaching serialization lie at year 1 or later, so the count is
taken as nonnegative.) -/
def _to_utc_isoformat (t : Int) : Str :=
  let tn := t.toNat
  let usecs := tn % 1000000
  let secs := tn / 1000000
  let c := civilFromDays (secs / 86400)
  let rest := secs % 86400
  padNat 4 c.1 ++ '-' :: padNat 2 c.2.1 ++ '-' :: padNat 2 c.2.2 ++
    'T' :: padNat 2 (rest / 3600) ++ ':' :: padNat 2 (rest % 3600 / 60) ++
    ':' :: padNat 2 (rest % 60) ++
    (if usecs = 0 then [] else '.' :: padNat 6 usecs) ++ ['Z']

/-- The query entry of Search.dict: the Query objects are merged through
utils.merge_schemas_dict, which calls each object's .dict() method. -/
def queryChunk (s : Search) : Except Str (List (Str × JVal)) :=
  match s.query with
  | none => .ok []
  | some qs =>
    match merge_schemas_dict (qs.map fun q => .obj q.dict) with
    | .error e => .error e
    | .ok m => .ok [(strL "query", JVal.jobj m)]

/-- The fields entry of Search.dict.  When both an include and an exclude
directive are present, the source passes the plain dicts fields[0].dict()
and fields[1].dict() to merge_schemas_dict, whose loop then calls .dict()
on them and raises AttributeError — so the serialization fails in that
state. -/
def fieldsChunk (s : Search) : Except Str (List (Str × JVal)) :=
  match s.fields with
  | none => .ok []
  | some (some f0, some f1) =>
    match merge_schemas_dict [.raw f0.dict, .raw f1.dict] with
    | .error e => .error e
    | .ok m => .ok [(strL "fields", JVal.jobj m)]
  | some (some f0, none) => .ok [(strL "fields", JVal.jobj f0.dict)]
  | some (none, some f1) => .ok [(strL "fields", JVal.jobj f1.dict)]
  | some (none, none) => .ok []

/-- Search.dict: the canonical dict, emitting only non-null fields in the
source's key order.  The intersects value is json.loads(geojson_dumps(g)),
i.e. the GeoJSON payload itself; the filter-lang value is the stored
filter_lang (an enum member or a plain string, both scalar).  The only
two fallible steps — the query merge (which always succeeds on Query
objects) and the fields merge (which raises AttributeError when both
sides are present) — are evaluated in source order; every other step is
pure, so hoisting them preserves the observable behavior. -/
def dict (s : Search) : Except Str (List (Str × JVal)) :=
  match queryChunk s with
  | .error e => .error e
  | .ok qc =>
    match fieldsChunk s with
    | .error e => .error e
    | .ok fc =>
      .ok (
        (match s.bbox with
         | none => []
         | some b => [(strL "bbox", JVal.jlist (b.map .jfloat))]) ++
        (match s.intersects with
         | none => []
         | some g => [(strL "intersects", JVal.jobj g.obj)]) ++
        (match s.datetime with
         | none => []
         | some (t, none) =>
           [(strL "datetime", JVal.jstr (_to_utc_isoformat t))]
         | some (t, some e) =>
           [(strL "datetime",
             JVal.jstr (_to_utc_isoformat t ++ '/' :: _to_utc_isoformat e))]) ++
        (match s.ids with
         | none => []
         | some l => [(strL "ids", JVal.jlist (l.map .jstr))]) ++
        (match s.collections with
         | none => []
         | some l => [(strL "collections", JVal.jlist (l.map .jstr))]) ++
        qc ++
        (match s.filter with
         | none => []
         | some (.text f) => [(strL "filter", JVal.jstr f)]
         | some (.node f) => [(strL "filter", JVal.jobj f.dict)]) ++
        (match s.filter_lang with
         | none => []
         | some fl => [(strL "filter-lang", JVal.jstr fl.text)]) ++
        (match s.sort_by with
         | none => []
         | some sbs =>
           [(strL "sortby",
             JVal.jlist (sbs.map fun sb => JVal.jobj sb.dict))]) ++
        fc ++
        (match s.limit with
         | none => []
         | some n => [(strL "limit", JVal.jint n)]))

/-- str() of one bbox element (an integral Python float). -/
def bboxElemStr : JVal → Str
  | .jfloat n => strL (toString n) ++ strL ".0"
  | .jint n => strL (toString n)
  | .jstr t => t
  | _ => []

/-- The content of a string element of a serialized list. -/
def strElem : JVal → Str
  | .jstr t => t
  | _ => []

/-- The per-entry rewriting applied by Search.get_request on top of the
canonical dict: bbox, ids and collections are comma-joined from the dict
values; intersects, sortby and fields are re-serialized from the stored
directives. -/
def getTransform (s : Search) (kv : Str × JVal) : Str × JVal :=
  if kv.1 = strL "bbox" then
    (kv.1, .jstr (joinSep ','
      (match kv.2 with
       | .jlist xs => xs.map bboxElemStr
       | _ => [])))
  else if kv.1 = strL "ids" ∨ kv.1 = strL "collections" then
    (kv.1, .jstr (joinSep ','
      (match kv.2 with
       | .jlist xs => xs.map strElem
       | _ => [])))
  else if kv.1 = strL "intersects" then
    (kv.1, match s.intersects with
      | some g => .jstr (geojson_dumps g)
      | none => kv.2)
  else if kv.1 = strL "sortby" then
    (kv.1, match s.sort_by with
      | some sbs => .jstr (joinSep ',' (sbs.map SortBy.toStr))
      | none => kv.2)
  else if kv.1 = strL "fields" then
    (kv.1, match s.fields with
      | some (some f0, some f1) => .jstr (f0.toStr ++ ',' :: f1.toStr)
      | some (some f0, none) => .jstr f0.toStr
      | some (none, some f1) => .jstr f1.toStr
      | _ => kv.2)
  else kv

/-- Search.get_request: a deep copy of the canonical dict with the six
flattenable keys rewritten to query-string text; it propagates the
AttributeError that self.dict() raises when both field directives are
present. -/
def get_request (s : Search) : Except Str (List (Str × JVal)) :=
  match s.dict with
  | .error e => .error e
  | .ok d => .ok (d.map (getTransform s))

/-- Search.post_request: a deep copy of the canonical dict, propagating
the same error. -/
def post_request (s : Search) : Except Str (List (Str × JVal)) :=
  s.dict

end Search

/- ----------------------------------------------------------------------
Claims.
---------------------------------------------------------------------- -/

/-- C1: the spec (and the library's own docstring and test suite) say a
full timestamp without an explicit offset resolves to that instant read
as UTC, paired with no end.  The code instead appends the text Z+00:00 to
the component and hands it to fromisoformat, which rejects any text after
a Z designator, so the call raises instead of succeeding: a code bug. -/
theorem c1_full_timestamp_no_offset_raises :
    Search._datetime_to_range (strL "2022-03-15T12:30:45") =
      .error (strL "Invalid isoformat string: 2022-03-15T12:30:45Z+00:00") ∧
    ¬ Search._datetime_to_range (strL "2022-03-15T12:30:45") =
        .ok (utcInstant 2022 3 15 12 30 45, none) :=
  ⟨rfl, fun h => Except.noConfusion h⟩

/-- C7 counterexample: a tuple of strings (a sequence that is not a
Python list) is rejected by the ids / collections conversion rather than
normalized, contradicting the claim that every sequence is accepted. -/
theorem c7_tuple_input_rejected :
    Search.idsField (some (.tup [PyPrim.s (strL "a"), PyPrim.s (strL "b")])) =
      .error (strL "invalid type: must be str or list") ∧
    ¬ Search.idsField (some (.tup [PyPrim.s (strL "a"), PyPrim.s (strL "b")])) =
        .ok (some [strL "a", strL "b"]) :=
  ⟨rfl, fun h => Except.noConfusion h⟩

/-- C7 (amended): a comma-bearing string is split on commas, a plain
string becomes a one-element list, a Python list is normalized with its
non-string elements stringified, and any other input type — including
sequences that are not lists, such as tuples — fails with a validation
error. -/
theorem c7_ids_normalization :
    (∀ v : Str, ',' ∈ v →
      Search.idsField (some (.text v)) = .ok (some (splitOnChar ',' v))) ∧
    (∀ v : Str, ',' ∉ v →
      Search.idsField (some (.text v)) = .ok (some [v])) ∧
    (∀ xs : List PyPrim,
      Search.idsField (some (.lst xs)) = .ok (some (xs.map pyPrimToStr))) ∧
    (∀ xs : List PyPrim,
      Search.idsField (some (.tup xs)) =
        .error (strL "invalid type: must be str or list")) ∧
    (∀ n : Int,
      Search.idsField (some (.intv n)) =
        .error (strL "invalid type: must be str or list")) := by
  refine ⟨?_, ?_, ?_, ?_, ?_⟩
  · intro v h
    simp only [Search.idsField, Search._covert_ids, if_pos h]
    have hcomp : (pyPrimToStr ∘ PyPrim.s) = id := funext fun x => rfl
    simp [List.map_map, hcomp]
  · intro v h
    simp only [Search.idsField, Search._covert_ids, if_neg h]
    simp [pyPrimToStr]
  · intro xs; rfl
  · intro xs; rfl
  · intro n; rfl

/-- C7 witness: the three accepting branches at concrete inputs. -/
theorem c7_ids_normalization_witness :
    Search.idsField (some (.text (strL "a,b"))) =
      .ok (some [strL "a", strL "b"]) ∧
    Search.idsField (some (.text (strL "ab"))) = .ok (some [strL "ab"]) ∧
    Search.idsField (some (.lst [PyPrim.i 1, PyPrim.s (strL "x")])) =
      .ok (some [strL "1", strL "x"]) :=
  ⟨(c7_ids_normalization.1 (strL "a,b") (by decide)).trans rfl,
   c7_ids_normalization.2.1 (strL "ab") (by decide),
   (c7_ids_normalization.2.2.1 [PyPrim.i 1, PyPrim.s (strL "x")]).trans rfl⟩

/-- C9: the six shorthand symbols are replaced by their canonical names;
a symbol that is neither a shorthand nor one of the ten canonical names
fails with an error message naming the offending symbol, and in
particular building a Query for property bbox with operator item
(wrong, 2) fails with a message mentioning wrong. -/
theorem c9_operator_canonicalization :
    (∀ (sym canon : Str) (v : JVal), OPERATOR_MAP sym = some canon →
      Query.check_operator (sym, v) = .ok (canon, v)) ∧
    (∀ (sym : Str) (v : JVal), OPERATOR_MAP sym = none →
      sym ∉ QUERY_OPERATOR →
      Query.check_operator (sym, v) =
        .error (strL "Operator " ++ sym ++ strL
          " is not valid it should be one of the query operators or the operator map keys")) ∧
    Query.make (strL "bbox") [(strL "wrong", .jint 2)] =
      .error (strL "Operator " ++ strL "wrong" ++ strL
        " is not valid it should be one of the query operators or the operator map keys") := by
  refine ⟨?_, ?_, rfl⟩
  · intro sym canon v h
    unfold OPERATOR_MAP at h
    split_ifs at h <;>
      first
        | exact Option.noConfusion h
        | (injection h with hc; subst hc; subst_vars; rfl)
  · intro sym v h hmem
    simp only [Query.check_operator, h]
    rw [if_neg hmem]

/-- C9 witness: shorthand replacement and rejection at concrete symbols. -/
theorem c9_operator_canonicalization_witness :
    Query.check_operator (strL "==", .jint 1) = .ok (strL "eq", .jint 1) ∧
    Query.check_operator (strL "wrong", .jnull) =
      .error (strL "Operator " ++ strL "wrong" ++ strL
        " is not valid it should be one of the query operators or the operator map keys") :=
  ⟨c9_operator_canonicalization.1 (strL "==") (strL "eq") (.jint 1) rfl,
   c9_operator_canonicalization.2.1 (strL "wrong") .jnull rfl (by decide)⟩

/-- The compact string form of an ordered sort directive list (the
comma-join of SortBy.__str__, as used by the GET serialization). -/
def sortByListToStr (ds : List SortBy) : Str :=
  joinSep ',' (ds.map SortBy.toStr)

/-- C8 counterexample: for the empty directive list the compact form is
the empty string, which the parser rejects instead of returning the empty
list, so the round-trip fails there. -/
theorem c8_empty_list_roundtrip_fails :
    SortBy.from_string (sortByListToStr []) =
      .error (strL "Empty string provided") ∧
    ¬ SortBy.from_string (sortByListToStr []) = .ok [] :=
  ⟨rfl, fun h => Except.noConfusion h⟩

/-- The rendered form of one directive contains no comma when its field
contains none. -/
theorem toStr_no_comma (d : SortBy) (h : ',' ∉ d.field) :
    ',' ∉ d.toStr := by
  intro hmem
  rcases List.mem_cons.mp hmem with h1 | h1
  · revert h1
    split <;> decide
  · exact h h1

/-- Parsing inverts rendering on a single directive. -/
theorem parseToken_toStr (d : SortBy) : SortBy.parseToken d.toStr = d := by
  obtain ⟨f, dir⟩ := d
  cases dir <;> simp [SortBy.toStr, SortBy.parseToken]

/-- The compact form of a non-empty directive list is non-empty. -/
theorem sortByListToStr_ne_nil (d : SortBy) (rest : List SortBy) :
    sortByListToStr (d :: rest) ≠ [] := by
  cases rest <;>
    simp [sortByListToStr, joinSep, SortBy.toStr]

/-- C8 (amended): for every non-empty ordered directive list whose field
names contain no embedded comma, parsing the compact string form returns
exactly the same ordered list. -/
theorem c8_sort_roundtrip (ds : List SortBy) (hne : ds ≠ [])
    (hnc : ∀ d ∈ ds, ',' ∉ d.field) :
    SortBy.from_string (sortByListToStr ds) = .ok ds := by
  induction ds with
  | nil => exact absurd rfl hne
  | cons d rest ih =>
    cases rest with
    | nil =>
      have h0 : sortByListToStr [d] = d.toStr := rfl
      rw [h0]
      unfold SortBy.from_string
      rw [if_neg (by simp [SortBy.toStr])]
      rw [splitOnChar_not_mem (toStr_no_comma d (hnc d (by simp)))]
      simp [parseToken_toStr]
    | cons d2 rest2 =>
      have key : sortByListToStr (d :: d2 :: rest2) =
          d.toStr ++ ',' :: sortByListToStr (d2 :: rest2) := rfl
      rw [key]
      unfold SortBy.from_string
      rw [if_neg (by simp [SortBy.toStr])]
      rw [splitOnChar_append _ (toStr_no_comma d (hnc d (by simp)))]
      have ihh := ih (by simp) (fun x hx => hnc x (by simp [hx]))
      unfold SortBy.from_string at ihh
      rw [if_neg (sortByListToStr_ne_nil d2 rest2)] at ihh
      simp only [Except.ok.injEq] at ihh
      simp [parseToken_toStr, ihh]

/-- C8 witness: the round-trip at a concrete two-directive list. -/
theorem c8_sort_roundtrip_witness :
    SortBy.from_string
        (sortByListToStr
          [⟨strL "datetime", .asc⟩, ⟨strL "cloud_cover", .desc⟩]) =
      .ok [⟨strL "datetime", .asc⟩, ⟨strL "cloud_cover", .desc⟩] :=
  c8_sort_roundtrip _ (by decide) (by decide)

/-- The canonical name of an operator symbol: its synonym-table image when
it is a shorthand, itself otherwise. -/
def canonOp (op : Str) : Str := (OPERATOR_MAP op).getD op

/-- check_operator accepts exactly the symbols whose canonical form is a
canonical operator name, rewriting them to that form. -/
theorem check_operator_valid (ov : Str × JVal)
    (h : canonOp ov.1 ∈ QUERY_OPERATOR) :
    Query.check_operator ov = .ok (canonOp ov.1, ov.2) := by
  unfold Query.check_operator canonOp at *
  cases hm : OPERATOR_MAP ov.1 <;> simp only [hm, Option.getD] at h ⊢ <;>
    rw [if_pos h]

/-- A list of raw (str, value) pairs wrapped as Python tuples passes the
pydantic List[Tuple[str, Any]] coercion unchanged. -/
theorem mapExcept_pairs (ops : List (Str × JVal)) :
    mapExcept pyObjToPair
        (ops.map fun ov => PyObj.ptuple [.pstr ov.1, .pjson ov.2]) =
      .ok ops := by
  induction ops with
  | nil => rfl
  | cons ov rest ih =>
    simp [mapExcept, pyObjToPair, pyObjToStr, pyObjVal, ih]

/-- Validating every operator item of a list of valid symbols yields the
canonicalized list. -/
theorem mapExcept_check (ops : List (Str × JVal))
    (h : ∀ p ∈ ops, canonOp p.1 ∈ QUERY_OPERATOR) :
    mapExcept Query.check_operator ops =
      .ok (ops.map fun ov => (canonOp ov.1, ov.2)) := by
  induction ops with
  | nil => rfl
  | cons ov rest ih =>
    simp [mapExcept, check_operator_valid ov (h ov (by simp)),
      ih (fun p hp => h p (by simp [hp]))]

/-- C10: a 2-element Python list whose first element is a property string
and whose second element is a list of valid (operator, value) pairs is
consumed by the query conversion as one (property, operators) pair: the
result is a single-element Query list whose property is that string. -/
theorem c10_query_two_element_list (prop : Str) (ops : List (Str × JVal))
    (hval : ∀ p ∈ ops, canonOp p.1 ∈ QUERY_OPERATOR) :
    Search._convert_query (some (.plist [.pstr prop,
        .plist (ops.map fun ov => PyObj.ptuple [.pstr ov.1, .pjson ov.2])])) =
      .ok (some [{ property := prop,
                   operator := ops.map fun ov => (canonOp ov.1, ov.2) }]) := by
  unfold Search._convert_query
  simp [queryFromObjs, pyObjToStr, pyObjToOps, mapExcept_pairs, Query.make,
    mapExcept_check ops hval]

/-- C10 witness: the concrete two-element list query from the test suite. -/
theorem c10_query_two_element_list_witness :
    Search._convert_query (some (.plist [.pstr (strL "bbox"),
        .plist [PyObj.ptuple [.pstr (strL "eq"), .pjson (.jint 2)]]])) =
      .ok (some [{ property := strL "bbox",
                   operator := [(strL "eq", JVal.jint 2)] }]) :=
  c10_query_two_element_list (strL "bbox") [(strL "eq", .jint 2)] (by decide)

/-- C4: constructing a Search with both a valid bbox and a non-null
intersects succeeds, clears bbox and retains the validated geometry,
whether the geometry was passed as a GeoJSON instance or as a valid
mapping. -/
theorem c4_bbox_intersects_exclusivity (st : Str) (bb : List Int)
    (g : GeoJSON) (hst : st = strL "api" ∨ st = strL "static")
    (hlen : bb.length = 4 ∨ bb.length = 6) :
    Search.construct { search_type := st, bbox := some bb,
                       intersects := some (.geo g) } =
      .ok { search_type := st, bbox := none, intersects := some g } ∧
    (g.is_valid = true →
      Search.construct { search_type := st, bbox := some bb,
                         intersects := some (.raw g) } =
        .ok { search_type := st, bbox := none, intersects := some g }) := by
  constructor
  · simp [Search.construct, if_pos hst, if_pos hlen,
      Search._intersects_to_geojson, Search._validate_datetime,
      Search.idsField, Search._covert_ids, Search._convert_query,
      Search._convert_filter, Search.validateFilterLang,
      Search._validate_positioning, Search._validate_filter_lang,
      bind, Except.bind, pure, Except.pure]
  · intro hv
    simp [Search.construct, if_pos hst, if_pos hlen,
      Search._intersects_to_geojson, hv, Search._validate_datetime,
      Search.idsField, Search._covert_ids, Search._convert_query,
      Search._convert_filter, Search.validateFilterLang,
      Search._validate_positioning, Search._validate_filter_lang,
      bind, Except.bind, pure, Except.pure]

/-- C4 witness: a concrete bbox together with a concrete geometry. -/
theorem c4_bbox_intersects_exclusivity_witness :
    Search.construct { search_type := strL "api",
                       bbox := some [-180, -90, 180, 90],
                       intersects := some
                         (.geo ⟨[(strL "type", .jstr (strL "Polygon"))], true⟩) } =
      .ok { search_type := strL "api", bbox := none,
            intersects := some ⟨[(strL "type", .jstr (strL "Polygon"))], true⟩ } :=
  (c4_bbox_intersects_exclusivity (strL "api") [-180, -90, 180, 90]
    ⟨[(strL "type", .jstr (strL "Polygon"))], true⟩
    (Or.inl rfl) (Or.inl rfl)).1

/-- C5: with a non-null filter and no explicit filter_lang the language is
inferred, cql2-text for a raw string and cql2-json for a structured
Filter; an explicitly supplied filter_lang is left unchanged. -/
theorem c5_filter_lang_inference (st : Str)
    (hst : st = strL "api" ∨ st = strL "static") :
    (∀ f : Str,
      Search.construct { search_type := st, filter := some (.text f) } =
        .ok { search_type := st, filter := some (.text f),
              filter_lang := some (.strv (strL "cql2-text")) }) ∧
    (∀ fl : Filter,
      Search.construct { search_type := st, filter := some (.fobj fl) } =
        .ok { search_type := st, filter := some (.node fl),
              filter_lang := some (.strv (strL "cql2-json")) }) ∧
    (∀ (f : Str) (c : CQL2),
      Search.construct { search_type := st, filter := some (.text f),
                         filter_lang := some (.enumv c) } =
        .ok { search_type := st, filter := some (.text f),
              filter_lang := some (.enumv c) }) ∧
    (∀ (fl : Filter) (c : CQL2),
      Search.construct { search_type := st, filter := some (.fobj fl),
                         filter_lang := some (.enumv c) } =
        .ok { search_type := st, filter := some (.node fl),
              filter_lang := some (.enumv c) }) := by
  refine ⟨fun f => ?_, fun fl => ?_, fun f c => ?_, fun fl c => ?_⟩ <;>
    simp [Search.construct, if_pos hst,
      Search._intersects_to_geojson, Search._validate_datetime,
      Search.idsField, Search._covert_ids, Search._convert_query,
      Search._convert_filter, Search.validateFilterLang,
      Search._validate_positioning, Search._validate_filter_lang,
      bind, Except.bind, pure, Except.pure]

/-- Every month has at least one day in the MONTH_DAYS table. -/
theorem MONTH_DAYS_pos (mo : Nat) : 1 ≤ MONTH_DAYS mo := by
  unfold MONTH_DAYS
  split <;> omega

/-- A start instant precedes the last second of a span of k days. -/
theorem le_month_end (s0 : Int) (k : Nat) (hk : 1 ≤ k) :
    s0 ≤ s0 + (k : Int) * usecDay - usecSec := by
  simp only [usecDay, usecHour, usecMin, usecSec]
  omega

/-- The same with one extra leap day appended. -/
theorem le_month_end_leap (s0 : Int) (k : Nat) (hk : 1 ≤ k) :
    s0 ≤ s0 + (k : Int) * usecDay - usecSec + usecDay := by
  simp only [usecDay, usecHour, usecMin, usecSec]
  omega

/-- Whenever the component resolver returns an explicit end, the start
does not exceed it (the end of every coarse expansion lies at least one
day minus one second after the start). -/
theorem range_start_le_end (c : Str) (s e : Int)
    (h : Search._datetime_to_range c = .ok (s, some e)) : s ≤ e := by
  unfold Search._datetime_to_range at h
  split at h
  · exact Except.noConfusion h
  rename_i m
  split at h
  · split at h <;> split at h
    · exact Except.noConfusion h
    · injection h with h2
      injection h2 with hs he
      exact Option.noConfusion he
    · exact Except.noConfusion h
    · injection h with h2
      injection h2 with hs he
      exact Option.noConfusion he
  · split at h
    · split at h
      · exact Except.noConfusion h
      · injection h with h2
        injection h2 with hs he
        injection he with he2
        subst hs
        rw [← he2]
        simp only [usecDay, usecHour, usecMin, usecSec]
        omega
    · split at h
      · split at h
        · exact Except.noConfusion h
        · injection h with h2
          injection h2 with hs he
          injection he with he2
          subst hs
          rw [← he2]
          split
          · exact le_month_end_leap _ _ (MONTH_DAYS_pos _)
          · exact le_month_end _ _ (MONTH_DAYS_pos _)
      · split at h
        · exact Except.noConfusion h
        · injection h with h2
          injection h2 with hs he
          injection he with he2
          subst hs
          rw [← he2]
          split <;>
            (simp only [usecDay, usecHour, usecMin, usecSec]; omega)

/-- C2: a two-ended datetime range (slash-separated string or 2-tuple of
instants) whose first side starts after the second side's end is swapped
rather than rejected, and the resulting pair is ordered; in particular
the stored range is (second start, first end), falling back to the first
start when the first side has no expanded end. -/
theorem c2_range_autoswap :
    (∀ (a b : Str) (s1 s2 : Int) (e1 e2 : Option Int),
      '/' ∉ a → '/' ∉ b →
      Search._datetime_to_range a = .ok (s1, e1) →
      Search._datetime_to_range b = .ok (s2, e2) →
      e2.getD s2 < s1 →
      Search._validate_datetime (some (.text (a ++ '/' :: b))) =
        .ok (some (s2, some (e1.getD s1))) ∧ s2 ≤ e1.getD s1) ∧
    (∀ d1 d2 : Int, d2 < d1 →
      Search._validate_datetime (some (.tup [some d1, some d2])) =
        .ok (some (d2, some d1)) ∧ d2 ≤ d1) := by
  constructor
  · intro a b s1 s2 e1 e2 ha hb h1 h2 hlt
    have hs2 : s2 ≤ e2.getD s2 := by
      cases e2 with
      | none => exact le_refl _
      | some e => simpa using range_start_le_end b s2 e h2
    have hlt2 : s2 < s1 := lt_of_le_of_lt hs2 hlt
    have hmem : '/' ∈ (a ++ '/' :: b) :=
      List.mem_append.mpr (Or.inr (List.mem_cons_self _ _))
    have hsplit : splitOnChar '/' (a ++ '/' :: b) = [a, b] := by
      rw [splitOnChar_append b ha, splitOnChar_not_mem hb]
    constructor
    · simp only [Search._validate_datetime]
      rw [if_pos hmem, hsplit]
      simp only [h1, h2]
      rw [if_pos hlt2]
      cases e1 <;> simp
    · cases e1 with
      | none => simpa using le_of_lt hlt2
      | some x =>
        simpa using le_trans (le_of_lt hlt2) (range_start_le_end a s1 x h1)
  · intro d1 d2 hd
    refine ⟨?_, le_of_lt hd⟩
    simp [Search._validate_datetime, hd]

/-- C2 witness: the flipped string range 2019/2018 resolves to the
claimed ordered pair, and a flipped tuple of instants is swapped. -/
theorem c2_range_autoswap_witness :
    Search._validate_datetime (some (.text (strL "2019/2018"))) =
      .ok (some (utcInstant 2018 1 1 0 0 0,
        some (utcInstant 2019 12 31 23 59 59))) ∧
    Search._validate_datetime (some (.tup [some 1, some 0])) =
      .ok (some (0, some 1)) := by
  constructor
  · exact (c2_range_autoswap.1 (strL "2019") (strL "2018")
      (utcInstant 2019 1 1 0 0 0) (utcInstant 2018 1 1 0 0 0)
      (some (utcInstant 2019 12 31 23 59 59))
      (some (utcInstant 2018 12 31 23 59 59))
      (by decide) (by decide) rfl rfl (by decide)).1
  · exact (c2_range_autoswap.2 1 0 (by norm_num)).1

/-- parseDigit on a digit character. -/
theorem parseDigit_cons (c : Char) (r : Str) (h : isDig c = true) :
    parseDigit (c :: r) = some (digVal c, r) := by
  simp [parseDigit, h]

/-- parseDigits2 on two digit characters. -/
theorem parseDigits2_eval (c1 c2 : Char) (r : Str)
    (h1 : isDig c1 = true) (h2 : isDig c2 = true) :
    parseDigits2 (c1 :: c2 :: r) = some (digVal c1 * 10 + digVal c2, r) := by
  simp [parseDigits2, parseDigit, h1, h2]

/-- parseDigits4 on four digit characters. -/
theorem parseDigits4_eval (c1 c2 c3 c4 : Char) (r : Str)
    (h1 : isDig c1 = true) (h2 : isDig c2 = true)
    (h3 : isDig c3 = true) (h4 : isDig c4 = true) :
    parseDigits4 (c1 :: c2 :: c3 :: c4 :: r) =
      some ((digVal c1 * 10 + digVal c2) * 100 +
        (digVal c3 * 10 + digVal c4), r) := by
  simp [parseDigits4, parseDigits2_eval c1 c2 _ h1 h2,
    parseDigits2_eval c3 c4 _ h3 h4]

/-- DATETIME_REGEX on a bare four-digit year. -/
theorem regexMatch_year (c1 c2 c3 c4 : Char)
    (h1 : isDig c1 = true) (h2 : isDig c2 = true)
    (h3 : isDig c3 = true) (h4 : isDig c4 = true) :
    datetimeRegexMatch [c1, c2, c3, c4] =
      some { year := (digVal c1 * 10 + digVal c2) * 100 +
        (digVal c3 * 10 + digVal c4) } := by
  unfold datetimeRegexMatch
  rw [parseDigits4_eval c1 c2 c3 c4 [] h1 h2 h3 h4]

/-- DATETIME_REGEX on a four-digit year, a dash and a two-digit month. -/
theorem regexMatch_year_month (c1 c2 c3 c4 c5 c6 : Char)
    (h1 : isDig c1 = true) (h2 : isDig c2 = true)
    (h3 : isDig c3 = true) (h4 : isDig c4 = true)
    (h5 : isDig c5 = true) (h6 : isDig c6 = true) :
    datetimeRegexMatch [c1, c2, c3, c4, '-', c5, c6] =
      some { year := (digVal c1 * 10 + digVal c2) * 100 +
               (digVal c3 * 10 + digVal c4),
             month := some (digVal c5 * 10 + digVal c6) } := by
  unfold datetimeRegexMatch
  rw [parseDigits4_eval c1 c2 c3 c4 ('-' :: c5 :: c6 :: []) h1 h2 h3 h4]
  simp [parseDigits2_eval c5 c6 [] h5 h6]

/-- Every month of the true calendar has at least one day. -/
theorem daysInMonth_pos (y m : Nat) : 1 ≤ daysInMonth y m := by
  unfold daysInMonth
  split_ifs <;> omega

/-- C3: a four-digit year string expands to the range from Jan 1
00:00:00 UTC to 365 days minus one second later, with one extra day
exactly when the year value is divisible by 4; a YYYY-MM string expands
to the range from the first instant of the month to MONTH_DAYS(month)
days minus one second later, with one extra day exactly when the month
is February and the year is divisible by 4. -/
theorem c3_coarse_expansion :
    (∀ c1 c2 c3 c4 : Char,
      isDig c1 = true → isDig c2 = true → isDig c3 = true →
      isDig c4 = true →
      ∀ y : Nat,
      y = (digVal c1 * 10 + digVal c2) * 100 +
        (digVal c3 * 10 + digVal c4) →
      1 ≤ y → y ≤ 9999 →
      Search._datetime_to_range [c1, c2, c3, c4] =
        .ok (utcInstant y 1 1 0 0 0,
          some (utcInstant y 1 1 0 0 0 + 365 * usecDay - usecSec +
            (if y % 4 = 0 then usecDay else 0)))) ∧
    (∀ c1 c2 c3 c4 c5 c6 : Char,
      isDig c1 = true → isDig c2 = true → isDig c3 = true →
      isDig c4 = true → isDig c5 = true → isDig c6 = true →
      ∀ y m : Nat,
      y = (digVal c1 * 10 + digVal c2) * 100 +
        (digVal c3 * 10 + digVal c4) →
      m = digVal c5 * 10 + digVal c6 →
      1 ≤ y → y ≤ 9999 → 1 ≤ m → m ≤ 12 →
      Search._datetime_to_range [c1, c2, c3, c4, '-', c5, c6] =
        .ok (utcInstant y m 1 0 0 0,
          some (utcInstant y m 1 0 0 0 +
            (MONTH_DAYS m : Int) * usecDay - usecSec +
            (if m = 2 ∧ y % 4 = 0 then usecDay else 0)))) := by
  constructor
  · intro c1 c2 c3 c4 h1 h2 h3 h4 y hy hy1 hy2
    have hmk : datetimeMk y 1 1 0 0 0 = .ok (utcInstant y 1 1 0 0 0) := by
      unfold datetimeMk
      rw [if_pos]
      exact ⟨hy1, hy2, le_refl 1, by norm_num, le_refl 1,
        daysInMonth_pos y 1, by norm_num, by norm_num, by norm_num⟩
    unfold Search._datetime_to_range
    rw [regexMatch_year c1 c2 c3 c4 h1 h2 h3 h4, ← hy]
    simp only [hmk]
    by_cases hy4 : y % 4 = 0 <;> simp [hy4]
  · intro c1 c2 c3 c4 c5 c6 h1 h2 h3 h4 h5 h6 y m hy hm hy1 hy2 hm1 hm2
    have hmk : datetimeMk y m 1 0 0 0 = .ok (utcInstant y m 1 0 0 0) := by
      unfold datetimeMk
      rw [if_pos]
      exact ⟨hy1, hy2, hm1, hm2, le_refl 1, daysInMonth_pos y m,
        by norm_num, by norm_num, by norm_num⟩
    unfold Search._datetime_to_range
    rw [regexMatch_year_month c1 c2 c3 c4 c5 c6 h1 h2 h3 h4 h5 h6,
      ← hy, ← hm]
    simp only [hmk]
    by_cases hc : m = 2 ∧ y % 4 = 0 <;> simp [hc]

/-- C3 witness: the year 2022 and the month 2022-03 resolve to the
calendar ranges claimed by the spec examples. -/
theorem c3_coarse_expansion_witness :
    Search._datetime_to_range (strL "2022") =
      .ok (utcInstant 2022 1 1 0 0 0,
        some (utcInstant 2022 12 31 23 59 59)) ∧
    Search._datetime_to_range (strL "2022-03") =
      .ok (utcInstant 2022 3 1 0 0 0,
        some (utcInstant 2022 3 31 23 59 59)) := by
  constructor
  · have h := c3_coarse_expansion.1 '2' '0' '2' '2'
      (by decide) (by decide) (by decide) (by decide) 2022 (by decide)
      (by decide) (by decide)
    rw [show strL "2022" = ['2', '0', '2', '2'] from rfl, h]
    rfl
  · have h := c3_coarse_expansion.2 '2' '0' '2' '2' '0' '3'
      (by decide) (by decide) (by decide) (by decide) (by decide)
      (by decide) 2022 3 (by decide) (by decide) (by decide) (by decide)
      (by decide) (by decide)
    rw [show strL "2022-03" = ['2', '0', '2', '2', '-', '0', '3'] from rfl, h]
    rfl

/-- A constructed Search holding one query directive, used to exhibit a
GET serialization with a nested mapping value. -/
def c6Search : Search :=
  { search_type := strL "api",
    query := some [⟨strL "bbox", [(strL "eq", .jint 2)]⟩] }

/-- The query merge of Search.dict never fails: every element is a Query
object exposing .dict(), so the util folds their dict forms. -/
theorem merge_schemas_query (qs : List Query) :
    merge_schemas_dict (qs.map fun q => MergeArg.obj q.dict) =
      .ok ((qs.map Query.dict).foldl dictUpdate []) := by
  rw [show (qs.map fun q => MergeArg.obj q.dict) =
      (qs.map Query.dict).map .obj by rw [List.map_map]; rfl]
  exact merge_schemas_go_objs [] _

/-- queryChunk with no query present. -/
theorem queryChunk_none (s : Search) (hq : s.query = none) :
    Search.queryChunk s = .ok [] := by
  unfold Search.queryChunk
  rw [hq]

/-- queryChunk with queries present: the merge of their dict forms. -/
theorem queryChunk_some (s : Search) (qs : List Query)
    (hq : s.query = some qs) :
    Search.queryChunk s =
      .ok [(strL "query",
        JVal.jobj ((qs.map Query.dict).foldl dictUpdate []))] := by
  unfold Search.queryChunk
  rw [hq]
  simp [merge_schemas_query]

/-- fieldsChunk with no fields present. -/
theorem fieldsChunk_none (s : Search) (hf : s.fields = none) :
    Search.fieldsChunk s = .ok [] := by
  unfold Search.fieldsChunk
  rw [hf]

/-- fieldsChunk with a both-empty pair. -/
theorem fieldsChunk_nn (s : Search) (hf : s.fields = some (none, none)) :
    Search.fieldsChunk s = .ok [] := by
  unfold Search.fieldsChunk
  rw [hf]

/-- fieldsChunk with only an include directive. -/
theorem fieldsChunk_incl (s : Search) (f0 : Field)
    (hf : s.fields = some (some f0, none)) :
    Search.fieldsChunk s = .ok [(strL "fields", JVal.jobj f0.dict)] := by
  unfold Search.fieldsChunk
  rw [hf]

/-- fieldsChunk with only an exclude directive. -/
theorem fieldsChunk_excl (s : Search) (f1 : Field)
    (hf : s.fields = some (none, some f1)) :
    Search.fieldsChunk s = .ok [(strL "fields", JVal.jobj f1.dict)] := by
  unfold Search.fieldsChunk
  rw [hf]

/-- fieldsChunk with both directives present raises the AttributeError
of merge_schemas_dict applied to plain dicts. -/
theorem fieldsChunk_both (s : Search) (f0 f1 : Field)
    (hf : s.fields = some (some f0, some f1)) :
    Search.fieldsChunk s =
      .error (strL "AttributeError: dict object has no attribute dict") := by
  unfold Search.fieldsChunk
  rw [hf]
  rfl

/-- C6 counterexample: a successfully constructed Search with a query
yields a GET mapping whose query value is a nested mapping, not a string
or primitive scalar, contradicting the claim for the query key. -/
theorem c6_query_value_not_flat :
    Search.construct { search_type := strL "api",
                       query := some (.pquery
                         ⟨strL "bbox", [(strL "eq", .jint 2)]⟩) } =
      .ok c6Search ∧
    Search.get_request c6Search =
      .ok [(strL "query", .jobj [(strL "bbox", .jobj [(strL "eq", .jint 2)])]),
           (strL "limit", .jint 100)] ∧
    JVal.isScalar (.jobj [(strL "bbox", .jobj [(strL "eq", .jint 2)])]) =
      false :=
  ⟨rfl, rfl, rfl⟩

/-- C6 (amended): whenever get_request succeeds, every value of the GET
mapping is a string or primitive scalar — bbox, ids, collections
comma-joined, intersects serialized geometry text, sortby and fields
compact strings, datetime a string, limit an integer — except the query
value and the value of a structured filter, which remain nested mappings;
and get_request does not succeed when both an include and an exclude
field directive are present: there the serialization raises the
AttributeError from merge_schemas_dict being handed plain dicts. -/
theorem c6_get_request_values :
    (∀ (s : Search) (kvs : List (Str × JVal)),
      Search.get_request s = .ok kvs →
      ∀ kv ∈ kvs, kv.2.isScalar = true ∨ kv.1 = strL "query" ∨
        (kv.1 = strL "filter" ∧ ∃ f, s.filter = some (.node f))) ∧
    (∀ (s : Search) (f0 f1 : Field),
      s.fields = some (some f0, some f1) →
      Search.get_request s =
        .error (strL "AttributeError: dict object has no attribute dict")) := by
  constructor
  · intro s kvs hok kv hkv
    unfold Search.get_request at hok
    cases hd : Search.dict s with
    | error e => rw [hd] at hok; simp at hok
    | ok d =>
      rw [hd] at hok
      simp only [Except.ok.injEq] at hok
      subst hok
      rw [List.mem_map] at hkv
      obtain ⟨kv0, h0, rfl⟩ := hkv
      unfold Search.dict at hd
      cases hqc : Search.queryChunk s with
      | error e => rw [hqc] at hd; simp at hd
      | ok qc =>
        rw [hqc] at hd
        cases hfc : Search.fieldsChunk s with
        | error e => rw [hfc] at hd; simp at hd
        | ok fc =>
          rw [hfc] at hd
          simp only [Except.ok.injEq] at hd
          subst hd
          simp only [List.mem_append] at h0
          rcases h0 with ((((((((((h | h) | h) | h) | h) | h) | h) | h) | h) | h) | h)
          · rcases hb : s.bbox with _ | b <;> rw [hb] at h
            · simp at h
            · rcases List.mem_singleton.mp h with rfl
              simp +decide [Search.getTransform, JVal.isScalar]
          · rcases hg : s.intersects with _ | g <;> rw [hg] at h
            · simp at h
            · rcases List.mem_singleton.mp h with rfl
              simp +decide [Search.getTransform, hg, JVal.isScalar]
          · rcases hdt : s.datetime with _ | ⟨t, _ | e⟩ <;> rw [hdt] at h
            · simp at h
            · rcases List.mem_singleton.mp h with rfl
              simp +decide [Search.getTransform, JVal.isScalar]
            · rcases List.mem_singleton.mp h with rfl
              simp +decide [Search.getTransform, JVal.isScalar]
          · rcases hi : s.ids with _ | l <;> rw [hi] at h
            · simp at h
            · rcases List.mem_singleton.mp h with rfl
              simp +decide [Search.getTransform, JVal.isScalar]
          · rcases hc : s.collections with _ | l <;> rw [hc] at h
            · simp at h
            · rcases List.mem_singleton.mp h with rfl
              simp +decide [Search.getTransform, JVal.isScalar]
          · rcases hq : s.query with _ | qs
            · rw [queryChunk_none s hq] at hqc
              injection hqc with h2
              rw [← h2] at h
              simp at h
            · rw [queryChunk_some s qs hq] at hqc
              injection hqc with h2
              rw [← h2] at h
              rcases List.mem_singleton.mp h with rfl
              simp +decide [Search.getTransform]
          · rcases hf : s.filter with _ | fv <;> rw [hf] at h
            · simp at h
            · cases fv with
              | text t =>
                rcases List.mem_singleton.mp h with rfl
                simp +decide [Search.getTransform, JVal.isScalar]
              | node f =>
                rcases List.mem_singleton.mp h with rfl
                refine Or.inr (Or.inr ?_)
                refine ⟨?_, f, rfl⟩
                simp +decide [Search.getTransform]
          · rcases hl : s.filter_lang with _ | fl <;> rw [hl] at h
            · simp at h
            · rcases List.mem_singleton.mp h with rfl
              simp +decide [Search.getTransform, JVal.isScalar]
          · rcases hs : s.sort_by with _ | sbs <;> rw [hs] at h
            · simp at h
            · rcases List.mem_singleton.mp h with rfl
              simp +decide [Search.getTransform, hs, JVal.isScalar]
          · rcases hfld : s.fields with _ | ⟨_ | f0, _ | f1⟩
            · rw [fieldsChunk_none s hfld] at hfc
              injection hfc with h2
              rw [← h2] at h
              simp at h
            · rw [fieldsChunk_nn s hfld] at hfc
              injection hfc with h2
              rw [← h2] at h
              simp at h
            · rw [fieldsChunk_excl s f1 hfld] at hfc
              injection hfc with h2
              rw [← h2] at h
              rcases List.mem_singleton.mp h with rfl
              simp +decide [Search.getTransform, hfld, JVal.isScalar]
            · rw [fieldsChunk_incl s f0 hfld] at hfc
              injection hfc with h2
              rw [← h2] at h
              rcases List.mem_singleton.mp h with rfl
              simp +decide [Search.getTransform, hfld, JVal.isScalar]
            · rw [fieldsChunk_both s f0 f1 hfld] at hfc
              exact absurd hfc (by simp)
          · rcases hn : s.limit with _ | n <;> rw [hn] at h
            · simp at h
            · rcases List.mem_singleton.mp h with rfl
              simp +decide [Search.getTransform, JVal.isScalar]
  · intro s f0 f1 hf
    unfold Search.get_request Search.dict
    rcases hq : s.query with _ | qs
    · rw [queryChunk_none s hq, fieldsChunk_both s f0 f1 hf]
    · rw [queryChunk_some s qs hq, fieldsChunk_both s f0 f1 hf]

/-- C6 witness: the amended statement at the default-limit entry of a
minimal Search, and the raising serialization of a Search holding both
an include and an exclude field directive. -/
theorem c6_get_request_values_witness :
    ((JVal.jint 100).isScalar = true ∨ strL "limit" = strL "query" ∨
      (strL "limit" = strL "filter" ∧
        ∃ f, ({ search_type := strL "api" } : Search).filter =
          some (.node f))) ∧
    Search.get_request
        { search_type := strL "api",
          fields := some (some ⟨.incl, [strL "a"]⟩,
                          some ⟨.excl, [strL "b"]⟩) } =
      .error (strL "AttributeError: dict object has no attribute dict") :=
  ⟨c6_get_request_values.1 { search_type := strL "api" }
      [(strL "limit", .jint 100)] rfl (strL "limit", .jint 100)
      (List.mem_singleton.mpr rfl),
   c6_get_request_values.2 _ ⟨.incl, [strL "a"]⟩ ⟨.excl, [strL "b"]⟩ rfl⟩

/-- C5 witness: inference at a concrete string filter and a concrete
structured filter, and pass-through of a concrete explicit language. -/
theorem c5_filter_lang_inference_witness :
    Search.construct { search_type := strL "api",
                       filter := some (.text (strL "id=1")) } =
      .ok { search_type := strL "api", filter := some (.text (strL "id=1")),
            filter_lang := some (.strv (strL "cql2-text")) } ∧
    Search.construct { search_type := strL "api",
                       filter := some (.fobj ⟨strL "and", []⟩) } =
      .ok { search_type := strL "api", filter := some (.node ⟨strL "and", []⟩),
            filter_lang := some (.strv (strL "cql2-json")) } ∧
    Search.construct { search_type := strL "api",
                       filter := some (.text (strL "id=1")),
                       filter_lang := some (.enumv .json) } =
      .ok { search_type := strL "api", filter := some (.text (strL "id=1")),
            filter_lang := some (.enumv .json) } :=
  ⟨(c5_filter_lang_inference (strL "api") (Or.inl rfl)).1 (strL "id=1"),
   (c5_filter_lang_inference (strL "api") (Or.inl rfl)).2.1 ⟨strL "and", []⟩,
   (c5_filter_lang_inference (strL "api") (Or.inl rfl)).2.2.1
     (strL "id=1") .json⟩

end PystacUser
